import Mathlib

/-
  Shallow embedding of the F1 replay engine (src/replay.py, run_replay and
  draw_leaderboard) together with the event-stream setup it consumes.

  Modelling conventions:
  * pandas Timedelta values are integers (a pd.Timedelta is an integer count
    of nanoseconds; we use milliseconds as the unit, in which every constant
    of the program is whole); pd.NaT is Option.none.
  * the playback speed is a rational; the float product
    real_time_delta * playback_speed converted to a Timedelta is modelled by
    exact integer arithmetic on the rational's numerator and denominator.
  * pd.Timedelta.max, the initial value of the session-best sector trackers,
    is modelled by Option.none (every real sector time is below it).
  * the driver_state dict is a total function String -> DriverState whose
    meaningful domain is the list of result abbreviations; a KeyError on an
    unknown key is modelled explicitly by drainExc.
  * the event_index i into timeline_events corresponds to the list suffix
    events.drop i.
-/

namespace F1

/-- Event types produced by build_timeline.py: Sector1, Sector2, Lap
    (sector-3 / lap completion), PitIn, PitOut. -/
inductive EventType where
  | sector1
  | sector2
  | lap
  | pitIn
  | pitOut
deriving DecidableEq, Repr

/-- Position-change arrow stored in a driver state: '' (blank), the green
    gain arrow, or the purple loss arrow. -/
inductive PosSymbol where
  | blank
  | gain
  | loss
deriving DecidableEq, Repr

/-- One record of the timeline parquet consumed by run_replay. -/
structure Event where
  time : ℤ
  driver : String
  lapNumber : ℕ
  position : ℤ
  eventType : EventType
  sector1Time : Option ℤ
  sector2Time : Option ℤ
  sector3Time : Option ℤ
  lapTime : Option ℤ
  compound : String
  tyreLife : Option ℤ
  isPersonalBestS1 : Bool
  isPersonalBestS2 : Bool
  isPersonalBestS3 : Bool
  gapToLeader : Option ℤ
  interval : Option ℤ
deriving DecidableEq, Repr

/-- The per-driver mutable record created at state init (replay.py line 239). -/
structure DriverState where
  position : ℤ
  previousPosition : ℤ
  lapNumber : ℕ
  compound : String
  tyreLife : Option ℤ
  gapToLeader : Option ℤ
  interval : Option ℤ
  status : String
  displayStatus : String
  lastEventType : Option EventType
  lastEventLap : ℕ
  pitStops : ℕ
  s1 : Option ℤ
  s2 : Option ℤ
  s3 : Option ℤ
  prevS2 : Option ℤ
  prevS3 : Option ℤ
  previousLapTime : Option ℤ
  lastUpdateTime : ℤ
  isPersonalBestS1 : Bool
  isPersonalBestS2 : Bool
  isPersonalBestS3 : Bool
  positionChangeSymbol : PosSymbol
  positionChangeExpiry : ℤ
deriving DecidableEq, Repr

/-- Session-best sector trackers best_s1_so_far, best_s2_so_far,
    best_s3_so_far; none models the initial pd.Timedelta.max. -/
structure Bests where
  s1 : Option ℤ
  s2 : Option ℤ
  s3 : Option ℤ
deriving DecidableEq, Repr

/-- Driver map plus the global session-best trackers. -/
structure EngineState where
  drivers : List String
  driverState : String → DriverState
  bests : Bests

/-- A row of the starting grid (abbreviation, grid position, starting
    compound already defaulted to "?" when missing). -/
structure GridEntry where
  abbr : String
  gridPosition : ℤ
  compound : String
deriving DecidableEq, Repr

/-- Constant RETIREMENT_THRESHOLD = 120 seconds, in milliseconds. -/
def retirementThreshold : ℤ := 120000

/-- Constant OVERTAKE_ARROW_DURATION = 4 seconds, in milliseconds. -/
def overtakeArrowDuration : ℤ := 4000

/-- The 10-second offset used by both skip controls, in milliseconds. -/
def skipOffset : ℤ := 10000

/-- Initial driver record from the starting grid (replay.py line 239). -/
def initDriverState (g : GridEntry) : DriverState :=
  { position := g.gridPosition
    previousPosition := g.gridPosition
    lapNumber := 0
    compound := g.compound
    tyreLife := some 1
    gapToLeader := none
    interval := none
    status := "On Track"
    displayStatus := "GRID"
    lastEventType := none
    lastEventLap := 0
    pitStops := 0
    s1 := none
    s2 := none
    s3 := none
    prevS2 := none
    prevS3 := none
    previousLapTime := none
    lastUpdateTime := -1000
    isPersonalBestS1 := false
    isPersonalBestS2 := false
    isPersonalBestS3 := false
    positionChangeSymbol := PosSymbol.blank
    positionChangeExpiry := -1000 }

/-- Engine state built at replay start from the results rows; values for
    keys outside the grid are junk (a lookup there is a KeyError, modelled
    by drainExc). -/
def initEngine (grid : List GridEntry) : EngineState :=
  { drivers := grid.map (fun g => g.abbr)
    driverState := fun d =>
      match grid.find? (fun g => g.abbr == d) with
      | some g => initDriverState g
      | none => initDriverState { abbr := d, gridPosition := 0, compound := "?" }
    bests := { s1 := none, s2 := none, s3 := none } }

/-- Lines 268-272: overtake indicator, then the unconditional
    previous-position update. -/
def applyOvertake (s : DriverState) (e : Event) : DriverState :=
  let s2 :=
    if e.position ≠ s.previousPosition ∧ 1 < s.lastEventLap then
      if e.position < s.previousPosition then
        { s with positionChangeSymbol := PosSymbol.gain
                 positionChangeExpiry := e.time + overtakeArrowDuration }
      else
        { s with positionChangeSymbol := PosSymbol.loss
                 positionChangeExpiry := e.time + overtakeArrowDuration }
    else s
  { s2 with previousPosition := e.position }

/-- Lines 273-275: display status by event type. -/
def applyDisplayStatus (s : DriverState) (e : Event) : DriverState :=
  match e.eventType with
  | EventType.pitIn => { s with displayStatus := "IN PIT" }
  | EventType.pitOut => { s with displayStatus := "OUT", pitStops := s.pitStops + 1 }
  | EventType.sector1 =>
      if s.displayStatus = "OUT" ∨ s.displayStatus = "GRID" then
        { s with displayStatus := "" }
      else s
  | _ => s

/-- Line 276: on a lap advance, shift s2,s3 into prevS2,prevS3 and clear the
    current-lap sector fields. -/
def applyLapRoll (s : DriverState) (e : Event) : DriverState :=
  if s.lastEventLap < e.lapNumber then
    { s with prevS2 := s.s2, prevS3 := s.s3, s1 := none, s2 := none, s3 := none }
  else s

/-- Line 277: the unconditional state.update with the common event fields. -/
def applyCommon (s : DriverState) (e : Event) : DriverState :=
  { s with position := e.position
           lapNumber := e.lapNumber
           compound := e.compound
           tyreLife := e.tyreLife
           gapToLeader := e.gapToLeader
           interval := e.interval
           lastEventType := some e.eventType
           lastEventLap := e.lapNumber
           lastUpdateTime := e.time
           isPersonalBestS1 := e.isPersonalBestS1
           isPersonalBestS2 := e.isPersonalBestS2
           isPersonalBestS3 := e.isPersonalBestS3 }

/-- Lines 278-286, per-driver part: type-specific sector-field assignment. -/
def applySectorFields (s : DriverState) (e : Event) : DriverState :=
  match e.eventType with
  | EventType.sector1 => { s with s1 := e.sector1Time }
  | EventType.sector2 => { s with s2 := e.sector2Time }
  | EventType.lap => { s with s3 := e.sector3Time, previousLapTime := e.lapTime }
  | _ => s

/-- The whole per-driver effect of one applied event (lines 267-286). -/
def applyEventToDriver (s : DriverState) (e : Event) : DriverState :=
  applySectorFields (applyCommon (applyLapRoll (applyDisplayStatus (applyOvertake s e) e) e) e) e

/-- Session-best update: lower the tracker when the carried time is present
    and strictly smaller (none plays the role of pd.Timedelta.max). -/
def updateBest (b : Option ℤ) (s : Option ℤ) : Option ℤ :=
  match s, b with
  | none, _ => b
  | some t, none => some t
  | some t, some v => if t < v then some t else b

/-- Lines 278-286, global part: which tracker an event may lower. -/
def updateBests (b : Bests) (e : Event) : Bests :=
  match e.eventType with
  | EventType.sector1 => { b with s1 := updateBest b.s1 e.sector1Time }
  | EventType.sector2 => { b with s2 := updateBest b.s2 e.sector2Time }
  | EventType.lap => { b with s3 := updateBest b.s3 e.sector3Time }
  | _ => b

/-- One event applied to the engine: driver record and session bests. -/
def applyEvent (st : EngineState) (e : Event) : EngineState :=
  { st with
      driverState :=
        Function.update st.driverState e.driver (applyEventToDriver (st.driverState e.driver) e)
      bests := updateBests st.bests e }

/-- The event-drain loop of lines 265-287 on the suffix of not-yet-consumed
    events: apply every leading event whose time has been reached, return
    the remaining suffix and the new engine state. -/
def drainList (T : ℤ) : List Event → EngineState → List Event × EngineState
  | [], st => ([], st)
  | e :: rest, st =>
      if e.time ≤ T then drainList T rest (applyEvent st e) else (e :: rest, st)

/-- The same drain phrased on an index into the full event list. -/
def drainIdx (events : List Event) (T : ℤ) (i : ℕ) (st : EngineState) : ℕ × EngineState :=
  let r := drainList T (events.drop i) st
  (i + ((events.drop i).length - r.1.length), r.2)

/-- Result of the drain when the KeyError of line 267 is modelled: an event
    naming a driver absent from the results dict aborts the loop, leaving
    the in-place mutations of the earlier events in the state. -/
inductive DrainResult where
  | ok (rest : List Event) (st : EngineState)
  | keyError (rest : List Event) (st : EngineState)

/-- Whether the drain aborted with a KeyError. -/
def DrainResult.isKeyErr : DrainResult → Bool
  | DrainResult.keyError _ _ => true
  | _ => false

/-- Engine state carried by a drain result. -/
def DrainResult.state : DrainResult → EngineState
  | DrainResult.ok _ st => st
  | DrainResult.keyError _ st => st

/-- Drain with the KeyError of driver_state[drv] made explicit. -/
def drainExc (T : ℤ) : List Event → EngineState → DrainResult
  | [], st => DrainResult.ok [] st
  | e :: rest, st =>
      if e.time ≤ T then
        if e.driver ∈ st.drivers then drainExc T rest (applyEvent st e)
        else DrainResult.keyError (e :: rest) st
      else DrainResult.ok (e :: rest) st

/-- Lines 288-292, one driver: finish classification, else retirement after
    the 120-second threshold, only while still On Track. -/
def assemblerDriver (finalStatus : String) (totalLaps : ℕ) (t : ℤ) (s : DriverState) : DriverState :=
  if s.status = "On Track" then
    if totalLaps ≤ s.lastEventLap ∧ s.lastEventType = some EventType.lap then
      { s with status := finalStatus, displayStatus := finalStatus }
    else if retirementThreshold < t - s.lastUpdateTime then
      { s with status := "DNF", displayStatus := "DNF" }
    else s
  else s

/-- Lines 288-292: the per-frame pass over all result drivers (each dict key
    is visited once). -/
def assemblerPass (results : String → String) (totalLaps : ℕ) (t : ℤ) (st : EngineState) :
    EngineState :=
  { st with
      driverState := fun d =>
        if d ∈ st.drivers then assemblerDriver (results d) totalLaps t (st.driverState d)
        else st.driverState d }

/-- Generic value-as-of-time lookup of lines 297-310: last row of the series
    filtered to times at or before the query, else the series default. -/
def sample {α : Type} (series : List (ℤ × α)) (dflt : α) (t : ℤ) : α :=
  match (series.filter (fun p => decide (p.1 ≤ t))).getLast? with
  | some p => p.2
  | none => dflt

/-- Lines 298-301: track status, default '1' (green). -/
def trackStatusAt (series : List (ℤ × String)) (t : ℤ) : String :=
  sample series "1" t

/-- Lines 302-305: wetness, default false. -/
def isWetAt (series : List (ℤ × Bool)) (t : ℤ) : Bool :=
  sample series false t

/-- Lines 307-310: DRS permission, default false. -/
def drsAllowedAt (series : List (ℤ × Bool)) (t : ℤ) : Bool :=
  sample series false t

/-- Line 113 of draw_leaderboard: the arrow shown for a driver given the
    frame's race time (None before the race starts). -/
def arrowShown (s : DriverState) (currentRaceTime : Option ℤ) : PosSymbol :=
  match currentRaceTime with
  | some t => if t < s.positionChangeExpiry then s.positionChangeSymbol else PosSymbol.blank
  | none => PosSymbol.blank

/-- Non-quitting control actions of lines 256-261 ('q' exits the loop before
    any of these run). -/
inductive Control where
  | pauseToggle
  | speedUp
  | speedDown
  | speedReset
  | skipForward
  | skipBackward
deriving DecidableEq, Repr

/-- timeline_events[0]['Time']; only ever used on a non-empty list. -/
def firstTime (events : List Event) : ℤ :=
  match events.head? with
  | some e => e.time
  | none => 0

/-- The mutable loop variables of run_replay. -/
structure LoopState where
  raceTime : ℤ
  paused : Bool
  speed : ℚ
  index : ℕ
  engine : EngineState

/-- Lines 256-261: effect of one control key. The backward skip clamps the
    race time to the first event's time and resets only the event index;
    the engine state (driver records and session bests) is untouched. -/
def handleControl (events : List Event) (c : Control) (ls : LoopState) : LoopState :=
  match c with
  | Control.pauseToggle => { ls with paused := !ls.paused }
  | Control.speedUp => { ls with speed := ls.speed * 2 }
  | Control.speedDown => { ls with speed := max (1/4) (ls.speed / 2) }
  | Control.speedReset => { ls with speed := 1 }
  | Control.skipForward => { ls with raceTime := ls.raceTime + skipOffset }
  | Control.skipBackward =>
      { ls with raceTime := max (firstTime events) (ls.raceTime - skipOffset), index := 0 }

/-- Line 264: race_time_delta, the elapsed wall milliseconds scaled by the
    playback speed (exact integer arithmetic on the rational speed). -/
def raceDelta (dReal : ℤ) (speed : ℚ) : ℤ :=
  dReal * speed.num / (speed.den : ℤ)

/-- One iteration of the frame loop (lines 253-292, drawing omitted): key
    handling, then — only when not paused — clock advance by real elapsed
    time times the speed, event drain, and the finish/retirement pass. -/
def tick (events : List Event) (results : String → String) (totalLaps : ℕ)
    (c : Option Control) (dReal : ℤ) (ls : LoopState) : LoopState :=
  let ls1 :=
    match c with
    | some k => handleControl events k ls
    | none => ls
  if ls1.paused then ls1
  else
    let t := ls1.raceTime + raceDelta dReal ls1.speed
    let r := drainIdx events t ls1.index ls1.engine
    { ls1 with raceTime := t, index := r.1, engine := assemblerPass results totalLaps t r.2 }

/-- A sequence of loop iterations, one (control, elapsed wall time) pair per
    frame. -/
def tickSeq (events : List Event) (results : String → String) (totalLaps : ℕ)
    (inputs : List (Option Control × ℤ)) (ls : LoopState) : LoopState :=
  inputs.foldl (fun l p => tick events results totalLaps p.1 p.2 l) ls

/-- Line 243: int(timeline_df['LapNumber'].max()); the max of an empty
    column is NaN and int(NaN) raises, modelled by none. -/
def maxLapNumber (events : List Event) : Option ℕ :=
  match events with
  | [] => none
  | e :: rest => some (rest.foldl (fun m x => max m x.lapNumber) e.lapNumber)

/-- Lines 242-244: derivation of total_events and total_laps. On an empty
    stream int(NaN) raises a ValueError that the handler of line 323 turns
    into a fatal report, before the dead emptiness check of line 244. No
    sortedness or driver-reference validation happens here. -/
def setup (events : List Event) : Except String (ℕ × ℕ) :=
  match maxLapNumber events with
  | none => Except.error "cannot convert float NaN to integer"
  | some totalLaps =>
      if events.length = 0 then Except.error "Timeline file contains no events."
      else Except.ok (events.length, totalLaps)

/-- Loop state at line 249: clock at the first event's time, unpaused, index
    zero, freshly initialised engine. -/
def initLoopState (events : List Event) (grid : List GridEntry) (speed : ℚ) : LoopState :=
  { raceTime := firstTime events
    paused := false
    speed := speed
    index := 0
    engine := initEngine grid }

/-- The frame loop of line 251: while the index is below the event count,
    run one tick per input and emit the state each frame draws from. -/
def loopFrames (events : List Event) (results : String → String)
    (totalLaps totalEvents : ℕ) : List (Option Control × ℤ) → LoopState → List LoopState
  | [], _ => []
  | p :: rest, ls =>
      if ls.index < totalEvents then
        let ls2 := tick events results totalLaps p.1 p.2 ls
        ls2 :: loopFrames events results totalLaps totalEvents rest ls2
      else []

/-- run_replay after data load: setup, then the frame loop; an error during
    setup means the loop is never entered and no frame is produced. -/
def runReplay (events : List Event) (grid : List GridEntry) (results : String → String)
    (speed : ℚ) (inputs : List (Option Control × ℤ)) : Except String (List LoopState) :=
  match setup events with
  | Except.error msg => Except.error msg
  | Except.ok p => Except.ok (loopFrames events results p.2 p.1 inputs (initLoopState events grid speed))

/-- A one-driver starting grid used by the concrete counterexamples. -/
def exGrid : List GridEntry := [{ abbr := "VER", gridPosition := 1, compound := "S" }]

/-- Final classification supplied by results.pkl for the examples. -/
def exResults : String → String := fun _ => "Finished"

/-- A template event; the examples override the distinguishing fields. -/
def baseEvent : Event :=
  { time := 0
    driver := "VER"
    lapNumber := 1
    position := 1
    eventType := EventType.sector1
    sector1Time := none
    sector2Time := none
    sector3Time := none
    lapTime := none
    compound := "S"
    tyreLife := some 1
    isPersonalBestS1 := false
    isPersonalBestS2 := false
    isPersonalBestS3 := false
    gapToLeader := none
    interval := none }

/-- A PitOut event at race time 0. -/
def exPitOut : Event := { baseEvent with eventType := EventType.pitOut, time := 0 }

/-- A Sector1 event far in the future, keeping the loop condition alive. -/
def exSector1Late : Event :=
  { baseEvent with eventType := EventType.sector1, time := 100000, sector1Time := some 30000 }

/-- Sorted two-event stream for the rewind counterexamples. -/
def exEventsA : List Event := [exPitOut, exSector1Late]

/-- Sector1 events used by the session-best rewind scenario. -/
def exS1Early : Event :=
  { baseEvent with eventType := EventType.sector1, time := 0, sector1Time := some 30000 }

/-- The later, faster Sector1 event of the session-best rewind scenario. -/
def exS1Fast : Event :=
  { baseEvent with eventType := EventType.sector1, time := 55000, sector1Time := some 20000 }

/-- A trailing Lap event keeping the loop condition alive. -/
def exLapFar : Event :=
  { baseEvent with eventType := EventType.lap, time := 1000000, sector3Time := some 25000, lapTime := some 75000 }

/-- Sorted three-event stream for the session-best rewind scenario. -/
def exEventsB : List Event := [exS1Early, exS1Fast, exLapFar]

/-- An unsorted stream (times 10 then 5) over the known driver. -/
def exUnsorted : List Event :=
  [{ baseEvent with eventType := EventType.sector1, time := 10000, sector1Time := some 30000 },
   { baseEvent with eventType := EventType.sector2, time := 5000, sector2Time := some 40000 }]

/-- An event referencing a driver absent from the grid. -/
def exUnknownEvent : Event := { baseEvent with driver := "XXX", time := 1000 }

/-- A stream whose second event references a driver absent from the grid. -/
def exUnknownDrv : List Event := [exPitOut, exUnknownEvent]

/-- A mid-lap-3 driver record with a current-lap s1, for a same-lap probe. -/
def exC4State : DriverState :=
  { initDriverState { abbr := "VER", gridPosition := 1, compound := "S" } with
      lastEventLap := 3
      s1 := some 31000 }

/-- A same-lap Sector2 event for the same-lap probe. -/
def exC4Event : Event :=
  { baseEvent with
      lapNumber := 3
      eventType := EventType.sector2
      sector2Time := some 32000 }

/-- A lap-3 driver record in second place, for an overtake probe. -/
def exC5State : DriverState :=
  { initDriverState { abbr := "VER", gridPosition := 2, compound := "S" } with
      lastEventLap := 3 }

/-- A lap-3 event moving the driver up to first, for the overtake probe. -/
def exC5Event : Event :=
  { baseEvent with
      lapNumber := 3
      position := 1
      time := 70000 }

/-- A paused loop state over the two-event example stream. -/
def exPausedLS : LoopState :=
  { initLoopState exEventsA exGrid 1 with paused := true }

/-- The DriverState fields that every applied event overwrites
    unconditionally (the state.update of line 277 plus the previous-position
    write of line 272). -/
structure CoreFields where
  position : ℤ
  previousPosition : ℤ
  lapNumber : ℕ
  compound : String
  tyreLife : Option ℤ
  gapToLeader : Option ℤ
  interval : Option ℤ
  lastEventType : Option EventType
  lastEventLap : ℕ
  lastUpdateTime : ℤ
  isPersonalBestS1 : Bool
  isPersonalBestS2 : Bool
  isPersonalBestS3 : Bool
deriving DecidableEq, Repr

/-- Projection of a driver record onto the unconditionally-overwritten
    fields. -/
def coreOf (s : DriverState) : CoreFields :=
  { position := s.position
    previousPosition := s.previousPosition
    lapNumber := s.lapNumber
    compound := s.compound
    tyreLife := s.tyreLife
    gapToLeader := s.gapToLeader
    interval := s.interval
    lastEventType := s.lastEventType
    lastEventLap := s.lastEventLap
    lastUpdateTime := s.lastUpdateTime
    isPersonalBestS1 := s.isPersonalBestS1
    isPersonalBestS2 := s.isPersonalBestS2
    isPersonalBestS3 := s.isPersonalBestS3 }

/-- The core-field values that applying an event forces, read off the event
    alone. -/
def coreFromEvent (e : Event) : CoreFields :=
  { position := e.position
    previousPosition := e.position
    lapNumber := e.lapNumber
    compound := e.compound
    tyreLife := e.tyreLife
    gapToLeader := e.gapToLeader
    interval := e.interval
    lastEventType := some e.eventType
    lastEventLap := e.lapNumber
    lastUpdateTime := e.time
    isPersonalBestS1 := e.isPersonalBestS1
    isPersonalBestS2 := e.isPersonalBestS2
    isPersonalBestS3 := e.isPersonalBestS3 }

/-- Order on tracker values with none playing pd.Timedelta.max. -/
def bestLE (a b : Option ℤ) : Bool :=
  match a, b with
  | _, none => true
  | none, some _ => false
  | some x, some y => decide (x ≤ y)

/-- Strict order on tracker values with none playing pd.Timedelta.max. -/
def bestLT (a b : Option ℤ) : Bool :=
  match a, b with
  | some _, none => true
  | none, _ => false
  | some x, some y => decide (x < y)

/-- Applying an event does not change the driver list. -/
theorem applyEvent_drivers (st : EngineState) (e : Event) :
    (applyEvent st e).drivers = st.drivers := rfl

/-- Applying an event does not change the session bests beyond updateBests. -/
theorem applyEvent_bests (st : EngineState) (e : Event) :
    (applyEvent st e).bests = updateBests st.bests e := rfl

/-- Applying an event leaves every other driver's record untouched. -/
theorem applyEvent_driverState_ne (st : EngineState) (e : Event) (d : String)
    (h : e.driver ≠ d) : (applyEvent st e).driverState d = st.driverState d :=
  Function.update_noteq (Ne.symm h) _ _

/-- Applying an event rewrites the owning driver's record. -/
theorem applyEvent_driverState_self (st : EngineState) (e : Event) :
    (applyEvent st e).driverState e.driver
      = applyEventToDriver (st.driverState e.driver) e :=
  Function.update_same _ _ _

/-- The core fields after one applied event are read off the event alone. -/
theorem coreOf_applyEventToDriver (s : DriverState) (e : Event) :
    coreOf (applyEventToDriver s e) = coreFromEvent e := by
  cases he : e.eventType <;>
    simp only [applyEventToDriver, applyOvertake, applyDisplayStatus, applyLapRoll,
      applyCommon, applySectorFields, he, coreOf, coreFromEvent] <;>
    split_ifs <;> rfl

/-- After a fold over an event list, a driver's core fields come from the
    last event of that driver in the list, else from the starting state. -/
theorem coreOf_foldl (l : List Event) (st : EngineState) (d : String) :
    coreOf ((List.foldl applyEvent st l).driverState d)
      = (l.reverse.find? (fun e => e.driver == d)).elim
          (coreOf (st.driverState d)) coreFromEvent := by
  induction l using List.reverseRecOn generalizing st with
  | nil => rfl
  | append_singleton l e ih =>
      rw [List.foldl_append, List.reverse_append]
      simp only [List.foldl_cons, List.foldl_nil, List.reverse_cons, List.reverse_nil,
        List.nil_append, List.cons_append, List.find?]
      cases hbeq : (e.driver == d) with
      | true =>
          have hd : e.driver = d := eq_of_beq hbeq
          simp only [Option.elim]
          rw [← hd, applyEvent_driverState_self, coreOf_applyEventToDriver]
      | false =>
          have hd : e.driver ≠ d := ne_of_beq_false hbeq
          rw [applyEvent_driverState_ne _ _ _ hd, ih]
          rfl

/-- Folding the same event list twice leaves every driver's core fields as
    after the first fold. -/
theorem coreOf_foldl_twice (l : List Event) (st : EngineState) (d : String) :
    coreOf ((List.foldl applyEvent (List.foldl applyEvent st l) l).driverState d)
      = coreOf ((List.foldl applyEvent st l).driverState d) := by
  cases h : l.reverse.find? (fun e => e.driver == d) with
  | none => rw [coreOf_foldl, h, Option.elim, coreOf_foldl, h, Option.elim]
  | some x => rw [coreOf_foldl, h, Option.elim, coreOf_foldl, h, Option.elim]

/-- The event-drain loop consumes exactly the leading run of due events and
    folds them into the state. -/
theorem drainList_eq (T : ℤ) (l : List Event) (st : EngineState) :
    drainList T l st
      = (l.dropWhile (fun e => decide (e.time ≤ T)),
         List.foldl applyEvent st (l.takeWhile (fun e => decide (e.time ≤ T)))) := by
  induction l generalizing st with
  | nil => rfl
  | cons e rest ih =>
      by_cases h : e.time ≤ T
      · simp [drainList, List.takeWhile, List.dropWhile, h, ih]
      · simp [drainList, List.takeWhile, List.dropWhile, h]

/-- Draining when no remaining event is due changes nothing. -/
theorem drainList_no_due (T : ℤ) (l : List Event) (st : EngineState)
    (h : ∀ e ∈ l, ¬(e.time ≤ T)) : drainList T l st = (l, st) := by
  cases l with
  | nil => rfl
  | cons e rest => simp [drainList, h e (List.mem_cons_self e rest)]

/-- A take of due events followed by a take at a later time over the rest
    is the take at the later time. -/
theorem takeWhile_then_takeWhile {α : Type} (p q : α → Bool)
    (hpq : ∀ a, p a = true → q a = true) (l : List α) :
    l.takeWhile p ++ (l.dropWhile p).takeWhile q = l.takeWhile q := by
  induction l with
  | nil => rfl
  | cons a rest ih =>
      cases hp : p a with
      | true =>
          simp only [List.takeWhile, List.dropWhile, hp, hpq a hp, List.cons_append]
          rw [ih]
      | false => simp only [List.takeWhile, List.dropWhile, hp, List.nil_append]

/-- The last kept row of a filtered list is the first match in the reversed
    list. -/
theorem getLast?_filter_eq_find?_reverse {α : Type} (p : α → Bool) (l : List α) :
    (l.filter p).getLast? = l.reverse.find? p := by
  induction l using List.reverseRecOn with
  | nil => rfl
  | append_singleton l a ih =>
      rw [List.filter_append, List.reverse_append]
      simp only [List.filter, List.reverse_cons, List.reverse_nil, List.nil_append,
        List.cons_append, List.find?]
      cases hp : p a with
      | true => simp [List.getLast?_append, List.filter, hp]
      | false => simp [List.filter, hp, ih]

/-- Sampling is the first match in the reversed series, else the default. -/
theorem sample_eq_find? {α : Type} (series : List (ℤ × α)) (dflt : α) (t : ℤ) :
    sample series dflt t
      = (series.reverse.find? (fun q => decide (q.1 ≤ t))).elim dflt (fun q => q.2) := by
  unfold sample
  rw [getLast?_filter_eq_find?_reverse]
  cases series.reverse.find? (fun q => decide (q.1 ≤ t)) <;> rfl

/-- In a time-sorted series the head's time bounds every entry's time. -/
theorem chain_head_le {α : Type} (p : ℤ × α) (rest : List (ℤ × α))
    (h : List.Chain' (fun a b : ℤ × α => a.1 ≤ b.1) (p :: rest)) :
    ∀ q ∈ p :: rest, p.1 ≤ q.1 := by
  induction rest generalizing p with
  | nil =>
      intro q hq
      rw [List.mem_singleton] at hq
      exact hq ▸ le_refl _
  | cons r t ih =>
      intro q hq
      have h1 : p.1 ≤ r.1 := (List.chain'_cons.mp h).1
      have h2 := (List.chain'_cons.mp h).2
      rcases List.mem_cons.mp hq with hq | hq
      · exact hq ▸ le_refl _
      · exact le_trans h1 (ih r h2 q hq)

/-- An applied event always stamps its lap number as the last event lap. -/
theorem applyEventToDriver_lastEventLap (s : DriverState) (e : Event) :
    (applyEventToDriver s e).lastEventLap = e.lapNumber :=
  congrArg CoreFields.lastEventLap (coreOf_applyEventToDriver s e)

/-- An applied event always overwrites the previous position. -/
theorem applyEventToDriver_previousPosition (s : DriverState) (e : Event) :
    (applyEventToDriver s e).previousPosition = e.position :=
  congrArg CoreFields.previousPosition (coreOf_applyEventToDriver s e)

/-- Without a lap advance, the sector fields change only by the event's own
    payload for its matched type; the carried previous-lap sectors stay. -/
theorem applyEventToDriver_sectors_no_roll (s : DriverState) (e : Event)
    (h : ¬ s.lastEventLap < e.lapNumber) :
    (applyEventToDriver s e).s1
        = (if e.eventType = EventType.sector1 then e.sector1Time else s.s1)
    ∧ (applyEventToDriver s e).s2
        = (if e.eventType = EventType.sector2 then e.sector2Time else s.s2)
    ∧ (applyEventToDriver s e).s3
        = (if e.eventType = EventType.lap then e.sector3Time else s.s3)
    ∧ (applyEventToDriver s e).prevS2 = s.prevS2
    ∧ (applyEventToDriver s e).prevS3 = s.prevS3 := by
  cases he : e.eventType <;>
    simp only [applyEventToDriver, applyOvertake, applyDisplayStatus, applyLapRoll,
      applyCommon, applySectorFields, he, h, if_false, ite_false] <;>
    split_ifs <;> simp_all

/-- When the overtake condition of line 268 holds, the indicator is set with
    the four-second expiry. -/
theorem applyEventToDriver_overtake_set (s : DriverState) (e : Event)
    (h1 : e.position ≠ s.previousPosition) (h2 : 1 < s.lastEventLap) :
    (applyEventToDriver s e).positionChangeSymbol
        = (if e.position < s.previousPosition then PosSymbol.gain else PosSymbol.loss)
    ∧ (applyEventToDriver s e).positionChangeExpiry = e.time + overtakeArrowDuration := by
  cases he : e.eventType <;>
    simp only [applyEventToDriver, applyOvertake, applyDisplayStatus, applyLapRoll,
      applyCommon, applySectorFields, he] <;>
    split_ifs <;> simp_all

/-- When the overtake condition of line 268 fails, the indicator is kept. -/
theorem applyEventToDriver_overtake_keep (s : DriverState) (e : Event)
    (h : ¬(e.position ≠ s.previousPosition ∧ 1 < s.lastEventLap)) :
    (applyEventToDriver s e).positionChangeSymbol = s.positionChangeSymbol
    ∧ (applyEventToDriver s e).positionChangeExpiry = s.positionChangeExpiry := by
  cases he : e.eventType <;>
    simp only [applyEventToDriver, applyOvertake, applyDisplayStatus, applyLapRoll,
      applyCommon, applySectorFields, he] <;>
    split_ifs <;> simp_all

/-- Finish branch of lines 290-291. -/
theorem assemblerDriver_finish (fs : String) (L : ℕ) (t : ℤ) (s : DriverState)
    (h1 : s.status = "On Track") (h2 : L ≤ s.lastEventLap)
    (h3 : s.lastEventType = some EventType.lap) :
    assemblerDriver fs L t s = { s with status := fs, displayStatus := fs } := by
  unfold assemblerDriver
  rw [if_pos h1, if_pos ⟨h2, h3⟩]

/-- Retirement branch of line 292. -/
theorem assemblerDriver_dnf (fs : String) (L : ℕ) (t : ℤ) (s : DriverState)
    (h1 : s.status = "On Track")
    (h2 : ¬(L ≤ s.lastEventLap ∧ s.lastEventType = some EventType.lap))
    (h3 : retirementThreshold < t - s.lastUpdateTime) :
    assemblerDriver fs L t s = { s with status := "DNF", displayStatus := "DNF" } := by
  unfold assemblerDriver
  rw [if_pos h1, if_neg h2, if_pos h3]

/-- A driver no longer On Track is left alone by the pass. -/
theorem assemblerDriver_frozen (fs : String) (L : ℕ) (t : ℤ) (s : DriverState)
    (h : s.status ≠ "On Track") : assemblerDriver fs L t s = s := by
  unfold assemblerDriver
  rw [if_neg h]

/-- The pass applies the per-driver transition to every listed driver. -/
theorem assemblerPass_mem (results : String → String) (L : ℕ) (t : ℤ)
    (st : EngineState) (d : String) (h : d ∈ st.drivers) :
    (assemblerPass results L t st).driverState d
      = assemblerDriver (results d) L t (st.driverState d) := by
  simp [assemblerPass, h]

/-- A fully paused tick (no control) is the identity. -/
theorem tick_paused_none (events : List Event) (results : String → String) (L : ℕ)
    (dR : ℤ) (ls : LoopState) (h : ls.paused = true) :
    tick events results L none dR ls = ls := by
  simp [tick, h]

/-- A paused tick with the skip-forward key only moves the clock. -/
theorem tick_paused_skipForward (events : List Event) (results : String → String) (L : ℕ)
    (dR : ℤ) (ls : LoopState) (h : ls.paused = true) :
    tick events results L (some Control.skipForward) dR ls
      = { ls with raceTime := ls.raceTime + skipOffset } := by
  simp [tick, handleControl, h]

/-- A paused tick with the skip-backward key clamps the clock and resets the
    index, touching nothing else. -/
theorem tick_paused_skipBackward (events : List Event) (results : String → String) (L : ℕ)
    (dR : ℤ) (ls : LoopState) (h : ls.paused = true) :
    tick events results L (some Control.skipBackward) dR ls
      = { ls with raceTime := max (firstTime events) (ls.raceTime - skipOffset), index := 0 } := by
  simp [tick, handleControl, h]

/-- An unpaused tick without control advances the clock, drains due events
    and runs the finish/retirement pass. -/
theorem tick_unpaused_none (events : List Event) (results : String → String) (L : ℕ)
    (dR : ℤ) (ls : LoopState) (h : ls.paused = false) :
    tick events results L none dR ls
      = { ls with
          raceTime := ls.raceTime + raceDelta dR ls.speed
          index := (drainIdx events (ls.raceTime + raceDelta dR ls.speed) ls.index ls.engine).1
          engine := assemblerPass results L (ls.raceTime + raceDelta dR ls.speed)
                      (drainIdx events (ls.raceTime + raceDelta dR ls.speed) ls.index ls.engine).2 } := by
  simp [tick, h]

/-- C3: for every auxiliary series and query time, the sample is the value
    of the last entry at or before the query (first match of the reversed
    series); an empty series, or one with no entry at or before the query —
    in particular any query before the first entry of a time-sorted series —
    yields the default, and the track-status, wetness and DRS defaults are
    green '1', not wet and DRS disabled; a query at or after the last entry
    returns that entry's value. -/
theorem C3_aux_timeline_sampling :
    (∀ (α : Type) (dflt : α) (t : ℤ), sample ([] : List (ℤ × α)) dflt t = dflt)
    ∧ (∀ (α : Type) (series : List (ℤ × α)) (dflt : α) (t : ℤ),
        sample series dflt t
          = (series.reverse.find? (fun q => decide (q.1 ≤ t))).elim dflt (fun q => q.2))
    ∧ (∀ (α : Type) (series : List (ℤ × α)) (dflt : α) (t : ℤ),
        (∀ q ∈ series, t < q.1) → sample series dflt t = dflt)
    ∧ (∀ (α : Type) (p : ℤ × α) (rest : List (ℤ × α)) (dflt : α) (t : ℤ),
        List.Chain' (fun a b : ℤ × α => a.1 ≤ b.1) (p :: rest) → t < p.1 →
        sample (p :: rest) dflt t = dflt)
    ∧ (∀ (α : Type) (l : List (ℤ × α)) (p : ℤ × α) (dflt : α) (t : ℤ),
        p.1 ≤ t → sample (l ++ [p]) dflt t = p.2)
    ∧ (∀ t : ℤ, trackStatusAt [] t = "1" ∧ isWetAt [] t = false ∧ drsAllowedAt [] t = false) := by
  have hempty : ∀ (α : Type) (series : List (ℤ × α)) (dflt : α) (t : ℤ),
      (∀ q ∈ series, t < q.1) → sample series dflt t = dflt := by
    intro α series dflt t h
    unfold sample
    rw [List.filter_eq_nil_iff.mpr]
    · rfl
    · intro q hq
      simp only [decide_eq_true_eq]
      exact not_le.mpr (h q hq)
  refine ⟨fun α dflt t => rfl, fun α series dflt t => sample_eq_find? series dflt t,
    hempty, ?_, ?_, fun t => ⟨rfl, rfl, rfl⟩⟩
  · intro α p rest dflt t hchain hlt
    exact hempty α (p :: rest) dflt t
      (fun q hq => lt_of_lt_of_le hlt (chain_head_le p rest hchain q hq))
  · intro α l p dflt t hp
    rw [sample_eq_find?, List.reverse_append]
    simp [List.find?, hp]

/-- Witness for C3 at a concrete series: a query past the last entry of a
    two-entry series returns the last value. -/
theorem C3_aux_timeline_sampling_witness :
    sample ([((1 : ℤ), "2")] ++ [((3 : ℤ), "4")]) "1" 5 = "4" :=
  C3_aux_timeline_sampling.2.2.2.2.1 String [((1 : ℤ), "2")] ((3 : ℤ), "4") "1" 5 (by decide)

/-- C4: an event of a later lap than the driver's last shifts s2,s3 into
    prevS2,prevS3 and clears s1,s2,s3 (line 276); an event of the same lap
    leaves the roll step as the identity; every applied event stamps its lap
    as lastEventLap, so a same-lap successor never rolls again; and a
    same-lap event only overwrites the sector field matching its own type,
    never clearing the others mid-lap. -/
theorem C4_lap_roll_clearing :
    (∀ (s : DriverState) (e : Event), s.lastEventLap < e.lapNumber →
        applyLapRoll s e
          = { s with prevS2 := s.s2, prevS3 := s.s3, s1 := none, s2 := none, s3 := none })
    ∧ (∀ (s : DriverState) (e : Event), e.lapNumber = s.lastEventLap → applyLapRoll s e = s)
    ∧ (∀ (s : DriverState) (e : Event), (applyEventToDriver s e).lastEventLap = e.lapNumber)
    ∧ (∀ (s : DriverState) (e e2 : Event), e2.lapNumber = e.lapNumber →
        applyLapRoll (applyEventToDriver s e) e2 = applyEventToDriver s e)
    ∧ (∀ (s : DriverState) (e : Event), e.lapNumber = s.lastEventLap →
        ((applyEventToDriver s e).s1
            = (if e.eventType = EventType.sector1 then e.sector1Time else s.s1)
         ∧ (applyEventToDriver s e).s2
            = (if e.eventType = EventType.sector2 then e.sector2Time else s.s2)
         ∧ (applyEventToDriver s e).s3
            = (if e.eventType = EventType.lap then e.sector3Time else s.s3)
         ∧ (applyEventToDriver s e).prevS2 = s.prevS2
         ∧ (applyEventToDriver s e).prevS3 = s.prevS3)) := by
  refine ⟨?_, ?_, applyEventToDriver_lastEventLap, ?_, ?_⟩
  · intro s e h
    unfold applyLapRoll
    rw [if_pos h]
  · intro s e h
    unfold applyLapRoll
    rw [if_neg (by omega)]
  · intro s e e2 h
    unfold applyLapRoll
    rw [if_neg (by rw [applyEventToDriver_lastEventLap, ← h]; omega)]
  · intro s e h
    exact applyEventToDriver_sectors_no_roll s e (by omega)

/-- Witness for C4 at a concrete state and event: a same-lap Sector2 event
    keeps s1 untouched. -/
theorem C4_lap_roll_clearing_witness :
    (applyEventToDriver exC4State exC4Event).s1
      = (if exC4Event.eventType = EventType.sector1 then exC4Event.sector1Time
         else exC4State.s1) :=
  (C4_lap_roll_clearing.2.2.2.2 exC4State exC4Event (by decide)).1

/-- C5: an applied event sets the overtake indicator exactly under the
    condition of line 268 (gain arrow when the position number shrank, loss
    otherwise) with expiry event time plus four seconds, keeps it otherwise,
    always overwrites previous_position, and the freshly set indicator is
    drawn at the event time and 3.99 seconds after it but not 4.01 seconds
    after it. -/
theorem C5_overtake_indicator :
    (∀ (s : DriverState) (e : Event),
        e.position ≠ s.previousPosition → 1 < s.lastEventLap →
        ((applyEventToDriver s e).positionChangeSymbol
            = (if e.position < s.previousPosition then PosSymbol.gain else PosSymbol.loss)
         ∧ (applyEventToDriver s e).positionChangeExpiry = e.time + overtakeArrowDuration))
    ∧ (∀ (s : DriverState) (e : Event),
        ¬(e.position ≠ s.previousPosition ∧ 1 < s.lastEventLap) →
        ((applyEventToDriver s e).positionChangeSymbol = s.positionChangeSymbol
         ∧ (applyEventToDriver s e).positionChangeExpiry = s.positionChangeExpiry))
    ∧ (∀ (s : DriverState) (e : Event), (applyEventToDriver s e).previousPosition = e.position)
    ∧ (∀ (s : DriverState) (e : Event),
        e.position ≠ s.previousPosition → 1 < s.lastEventLap →
        (arrowShown (applyEventToDriver s e) (some e.time) ≠ PosSymbol.blank
         ∧ arrowShown (applyEventToDriver s e) (some (e.time + 3990)) ≠ PosSymbol.blank
         ∧ arrowShown (applyEventToDriver s e) (some (e.time + 4010)) = PosSymbol.blank)) := by
  refine ⟨fun s e h1 h2 => applyEventToDriver_overtake_set s e h1 h2,
    fun s e h => applyEventToDriver_overtake_keep s e h,
    applyEventToDriver_previousPosition, ?_⟩
  intro s e h1 h2
  obtain ⟨hsym, hexp⟩ := applyEventToDriver_overtake_set s e h1 h2
  have hne : (applyEventToDriver s e).positionChangeSymbol ≠ PosSymbol.blank := by
    rw [hsym]
    split_ifs <;> simp
  have hexp4 : (applyEventToDriver s e).positionChangeExpiry = e.time + 4000 := by
    rw [hexp]
    rfl
  refine ⟨?_, ?_, ?_⟩
  · show (if e.time < (applyEventToDriver s e).positionChangeExpiry
        then (applyEventToDriver s e).positionChangeSymbol else PosSymbol.blank) ≠ PosSymbol.blank
    rw [hexp4, if_pos (by omega)]
    exact hne
  · show (if e.time + 3990 < (applyEventToDriver s e).positionChangeExpiry
        then (applyEventToDriver s e).positionChangeSymbol else PosSymbol.blank) ≠ PosSymbol.blank
    rw [hexp4, if_pos (by omega)]
    exact hne
  · show (if e.time + 4010 < (applyEventToDriver s e).positionChangeExpiry
        then (applyEventToDriver s e).positionChangeSymbol else PosSymbol.blank) = PosSymbol.blank
    rw [hexp4, if_neg (by omega)]

/-- Witness for C5 at a concrete overtake: a lap-3 position change from 2
    to 1 sets the gain arrow. -/
theorem C5_overtake_indicator_witness :
    (applyEventToDriver exC5State exC5Event).positionChangeSymbol
      = (if exC5Event.position < exC5State.previousPosition then PosSymbol.gain
         else PosSymbol.loss) :=
  (C5_overtake_indicator.1 exC5State exC5Event (by decide) (by decide)).1

/-- C6: on each unpaused pass, a driver still On Track whose last event lap
    reached the total laps with a Lap event takes the final classification
    from the results data as status and display status; otherwise, once the
    race clock is more than 120 seconds past the driver's last applied
    event, both become DNF — also on a tick that drains no event at all;
    drivers no longer On Track are left alone, and the pass visits every
    listed driver. -/
theorem C6_finish_retirement :
    (∀ (fs : String) (L : ℕ) (t : ℤ) (s : DriverState),
        s.status = "On Track" → L ≤ s.lastEventLap → s.lastEventType = some EventType.lap →
        assemblerDriver fs L t s = { s with status := fs, displayStatus := fs })
    ∧ (∀ (fs : String) (L : ℕ) (t : ℤ) (s : DriverState),
        s.status = "On Track" →
        ¬(L ≤ s.lastEventLap ∧ s.lastEventType = some EventType.lap) →
        retirementThreshold < t - s.lastUpdateTime →
        assemblerDriver fs L t s = { s with status := "DNF", displayStatus := "DNF" })
    ∧ (∀ (fs : String) (L : ℕ) (t : ℤ) (s : DriverState),
        s.status ≠ "On Track" → assemblerDriver fs L t s = s)
    ∧ (∀ (results : String → String) (L : ℕ) (t : ℤ) (st : EngineState) (d : String),
        d ∈ st.drivers →
        (assemblerPass results L t st).driverState d
          = assemblerDriver (results d) L t (st.driverState d))
    ∧ (∀ (events : List Event) (results : String → String) (L : ℕ) (dR : ℤ)
          (ls : LoopState) (d : String),
        ls.paused = false →
        (∀ e ∈ events.drop ls.index, ¬(e.time ≤ ls.raceTime + raceDelta dR ls.speed)) →
        d ∈ ls.engine.drivers →
        (tick events results L none dR ls).engine.driverState d
          = assemblerDriver (results d) L (ls.raceTime + raceDelta dR ls.speed)
              (ls.engine.driverState d)) := by
  refine ⟨assemblerDriver_finish, assemblerDriver_dnf, assemblerDriver_frozen,
    assemblerPass_mem, ?_⟩
  intro events results L dR ls d hp hdue hmem
  rw [tick_unpaused_none events results L dR ls hp]
  show (assemblerPass results L (ls.raceTime + raceDelta dR ls.speed)
      ((drainIdx events (ls.raceTime + raceDelta dR ls.speed) ls.index ls.engine).2)).driverState d
    = assemblerDriver (results d) L (ls.raceTime + raceDelta dR ls.speed)
        (ls.engine.driverState d)
  simp only [drainIdx, drainList_no_due _ _ _ hdue]
  exact assemblerPass_mem results L _ ls.engine d hmem

/-- Witness for C6 at a concrete stale driver: 130 seconds with no applied
    event turn the grid record into a DNF. -/
theorem C6_finish_retirement_witness :
    assemblerDriver "Finished" 57 130000
        (initDriverState { abbr := "VER", gridPosition := 1, compound := "S" })
      = { initDriverState { abbr := "VER", gridPosition := 1, compound := "S" } with
          status := "DNF"
          displayStatus := "DNF" } :=
  C6_finish_retirement.2.1 "Finished" 57 130000
    (initDriverState { abbr := "VER", gridPosition := 1, compound := "S" })
    (by decide) (by decide) (by decide)

/-- C9: while paused a tick is the identity — the clock gains zero race time
    whatever wall time elapsed, no event is consumed, no driver record or
    finish/retirement transition changes — yet control input still lands: a
    paused skip-forward moves only the clock, a paused skip-backward clamps
    the clock and resets the event index, and events are drained only by an
    unpaused tick. -/
theorem C9_pause_semantics :
    (∀ (events : List Event) (results : String → String) (L : ℕ) (dR : ℤ) (ls : LoopState),
        ls.paused = true → tick events results L none dR ls = ls)
    ∧ (∀ (events : List Event) (results : String → String) (L : ℕ) (dR : ℤ) (ls : LoopState),
        ls.paused = true →
        tick events results L (some Control.skipForward) dR ls
          = { ls with raceTime := ls.raceTime + skipOffset })
    ∧ (∀ (events : List Event) (results : String → String) (L : ℕ) (dR : ℤ) (ls : LoopState),
        ls.paused = true →
        tick events results L (some Control.skipBackward) dR ls
          = { ls with raceTime := max (firstTime events) (ls.raceTime - skipOffset), index := 0 })
    ∧ (∀ (events : List Event) (results : String → String) (L : ℕ) (dR : ℤ) (ls : LoopState),
        ls.paused = false →
        tick events results L none dR ls
          = { ls with
              raceTime := ls.raceTime + raceDelta dR ls.speed
              index := (drainIdx events (ls.raceTime + raceDelta dR ls.speed) ls.index ls.engine).1
              engine := assemblerPass results L (ls.raceTime + raceDelta dR ls.speed)
                          (drainIdx events (ls.raceTime + raceDelta dR ls.speed) ls.index
                            ls.engine).2 }) :=
  ⟨tick_paused_none, tick_paused_skipForward, tick_paused_skipBackward, tick_unpaused_none⟩

/-- Witness for C9 at a concrete paused state: half a second of wall time
    changes nothing. -/
theorem C9_pause_semantics_witness :
    tick exEventsA exResults 1 none 500 exPausedLS = exPausedLS :=
  C9_pause_semantics.1 exEventsA exResults 1 500 exPausedLS (by decide)

/-- C7: a replay over an empty event stream fails during setup — the
    total-lap derivation int(NaN) raises, reported as a fatal error before
    the frame loop — so playback never starts and no frame is produced. -/
theorem C7_empty_stream (grid : List GridEntry) (results : String → String)
    (speed : ℚ) (inputs : List (Option Control × ℤ)) :
    runReplay [] grid results speed inputs
      = Except.error "cannot convert float NaN to integer" := rfl

/-- C1 counterexample: on the sorted two-event stream, replaying to race
    time 10s, skipping backward (clamped to 0s) and replaying forward to 10s
    again leaves a DriverState different from the straight replay to 10s —
    the re-applied PitOut doubles the pit-stop count, because the backward
    skip resets only the event index and not the driver records. -/
theorem C1_counterexample :
    (tickSeq exEventsA exResults 1
        [(none, 10000), (some Control.skipBackward, 0), (none, 10000)]
        (initLoopState exEventsA exGrid 1)).engine.driverState "VER"
      ≠ (tickSeq exEventsA exResults 1 [(none, 10000)]
          (initLoopState exEventsA exGrid 1)).engine.driverState "VER" := by
  decide

/-- C1 amended: full DriverState identity fails after a rewind (see the
    counterexample), but replaying to T, re-draining the whole stream to an
    earlier time then on to T again does reproduce, for every driver, all
    the fields every applied event overwrites unconditionally: position,
    previous position, lap number, compound, tyre life, gap, interval, last
    event type, last event lap, last update time and the personal-best
    flags. -/
theorem C1_rewind_core_agree (events : List Event) (grid : List GridEntry)
    (t1 T : ℤ) (h : t1 ≤ T) (d : String) :
    coreOf (((drainList T
          ((drainList t1 events ((drainList T events (initEngine grid)).2)).1)
          ((drainList t1 events ((drainList T events (initEngine grid)).2)).2)).2).driverState d)
      = coreOf (((drainList T events (initEngine grid)).2).driverState d) := by
  have hmono : ∀ e : Event, decide (e.time ≤ t1) = true → decide (e.time ≤ T) = true := by
    intro e he
    simp only [decide_eq_true_eq] at he ⊢
    omega
  simp only [drainList_eq]
  rw [← List.foldl_append, takeWhile_then_takeWhile _ _ hmono]
  exact coreOf_foldl_twice _ _ _

/-- Witness for C1 on the concrete two-event stream: the core fields after
    replay, rewind to 0 and replay to 10s match the straight replay. -/
theorem C1_rewind_core_agree_witness :
    coreOf (((drainList 10000
          ((drainList 0 exEventsA ((drainList 10000 exEventsA (initEngine exGrid)).2)).1)
          ((drainList 0 exEventsA ((drainList 10000 exEventsA (initEngine exGrid)).2)).2)).2).driverState "VER")
      = coreOf (((drainList 10000 exEventsA (initEngine exGrid)).2).driverState "VER") :=
  C1_rewind_core_agree exEventsA exGrid 0 10000 (by decide) "VER"

/-- C2 counterexample: after the backward-skip tick (race time back at 0s)
    the driver record differs from the initial grid state re-advanced to the
    new race time, which is what a full rewind would give — the pit-stop
    count was never reset. -/
theorem C2_counterexample :
    (tickSeq exEventsA exResults 1 [(none, 10000), (some Control.skipBackward, 0)]
        (initLoopState exEventsA exGrid 1)).engine.driverState "VER"
      ≠ ((drainList 0 exEventsA (initEngine exGrid)).2).driverState "VER" := by
  decide

/-- C2 amended: the skip-backward control subtracts the 10-second offset
    clamped to the first event's time and resets the event index to 0, but
    leaves every DriverState and the session bests untouched; the same tick
    then re-drains from index 0 on top of the existing engine state. -/
theorem C2_skip_backward_no_reset (events : List Event) (results : String → String)
    (L : ℕ) (dR : ℤ) (ls : LoopState) (hp : ls.paused = false) :
    handleControl events Control.skipBackward ls
      = { ls with raceTime := max (firstTime events) (ls.raceTime - skipOffset), index := 0 }
    ∧ (handleControl events Control.skipBackward ls).engine = ls.engine
    ∧ tick events results L (some Control.skipBackward) dR ls
        = { ls with
            raceTime := max (firstTime events) (ls.raceTime - skipOffset) + raceDelta dR ls.speed
            index := (drainIdx events
                (max (firstTime events) (ls.raceTime - skipOffset) + raceDelta dR ls.speed)
                0 ls.engine).1
            engine := assemblerPass results L
                (max (firstTime events) (ls.raceTime - skipOffset) + raceDelta dR ls.speed)
                (drainIdx events
                  (max (firstTime events) (ls.raceTime - skipOffset) + raceDelta dR ls.speed)
                  0 ls.engine).2 } := by
  refine ⟨rfl, rfl, ?_⟩
  simp [tick, handleControl, hp]

/-- Witness for C2 on a concrete state: the skip control leaves the engine
    untouched. -/
theorem C2_skip_backward_no_reset_witness :
    (handleControl exEventsA Control.skipBackward (initLoopState exEventsA exGrid 1)).engine
      = (initLoopState exEventsA exGrid 1).engine :=
  (C2_skip_backward_no_reset exEventsA exResults 1 0 (initLoopState exEventsA exGrid 1)
    (by decide)).2.1

/-- C8 counterexample: the unsorted stream passes setup and replays fully
    with no error while mutating driver state, and the unknown-driver stream
    also passes setup — its KeyError surfaces only mid-replay, after the
    earlier event has already been applied to driver state. -/
theorem C8_counterexample :
    (setup exUnsorted).isOk = true
    ∧ (drainExc 20000 exUnsorted (initEngine exGrid)).isKeyErr = false
    ∧ (drainExc 20000 exUnsorted (initEngine exGrid)).state.driverState "VER"
        ≠ (initEngine exGrid).driverState "VER"
    ∧ (setup exUnknownDrv).isOk = true
    ∧ (drainExc 20000 exUnknownDrv (initEngine exGrid)).isKeyErr = true
    ∧ (drainExc 20000 exUnknownDrv (initEngine exGrid)).state.driverState "VER"
        ≠ (initEngine exGrid).driverState "VER" := by
  decide

/-- C8 amended: ingestion performs no validation — setup accepts every
    non-empty stream, sorted or not, whatever drivers it names; an event
    naming an unknown driver raises its KeyError only when the drain reaches
    it, with all earlier due events already folded into the state. -/
theorem C8_no_ingestion_validation :
    (∀ events : List Event, events ≠ [] → (setup events).isOk = true)
    ∧ (∀ (st : EngineState) (T : ℤ) (es1 : List Event) (e : Event) (es2 : List Event),
        (∀ x ∈ es1, x.time ≤ T) → (∀ x ∈ es1, x.driver ∈ st.drivers) →
        e.time ≤ T → e.driver ∉ st.drivers →
        drainExc T (es1 ++ e :: es2) st
          = DrainResult.keyError (e :: es2) (List.foldl applyEvent st es1)) := by
  constructor
  · intro events h
    cases events with
    | nil => exact absurd rfl h
    | cons e rest =>
        simp only [setup, maxLapNumber, List.length_cons]
        rfl
  · intro st T es1 e es2
    induction es1 generalizing st with
    | nil =>
        intro _ _ hT hd
        simp [drainExc, hT, hd]
    | cons x es1 ih =>
        intro htime hdrv hT hd
        have hx : x.time ≤ T := htime x (List.mem_cons_self x es1)
        have hxd : x.driver ∈ st.drivers := hdrv x (List.mem_cons_self x es1)
        have hrec := ih (applyEvent st x)
          (fun y hy => htime y (List.mem_cons_of_mem x hy))
          (fun y hy => by
            rw [applyEvent_drivers]
            exact hdrv y (List.mem_cons_of_mem x hy))
          hT
          (by
            rw [applyEvent_drivers]
            exact hd)
        simp [drainExc, hx, hxd, hrec]

/-- Witness for C8 on the concrete unknown-driver stream: the drain aborts
    at the unknown event with the PitOut already applied. -/
theorem C8_no_ingestion_validation_witness :
    drainExc 20000 ([exPitOut] ++ exUnknownEvent :: []) (initEngine exGrid)
      = DrainResult.keyError (exUnknownEvent :: [])
          (List.foldl applyEvent (initEngine exGrid) [exPitOut]) :=
  C8_no_ingestion_validation.2 (initEngine exGrid) 20000 [exPitOut] exUnknownEvent []
    (by decide) (by decide) (by decide) (by decide)

/-- C10: the three session-best trackers start at the maximal duration, an
    applied event can only keep or lower the tracker matching its type — and
    lowers it exactly to a carried non-missing time strictly below the
    current value — no control action or assembler pass ever touches them,
    and after a concrete backward skip the S1 tracker still holds the time
    of an event lying beyond the rewound race clock. -/
theorem C10_session_bests :
    (∀ grid : List GridEntry,
        (initEngine grid).bests = { s1 := none, s2 := none, s3 := none })
    ∧ (∀ b s : Option ℤ, bestLE (updateBest b s) b = true)
    ∧ (∀ b s : Option ℤ, updateBest b s ≠ b →
        ∃ t : ℤ, s = some t ∧ updateBest b s = some t ∧ bestLT (some t) b = true)
    ∧ (∀ (st : EngineState) (e : Event),
        (applyEvent st e).bests.s1
            = (if e.eventType = EventType.sector1 then updateBest st.bests.s1 e.sector1Time
               else st.bests.s1)
        ∧ (applyEvent st e).bests.s2
            = (if e.eventType = EventType.sector2 then updateBest st.bests.s2 e.sector2Time
               else st.bests.s2)
        ∧ (applyEvent st e).bests.s3
            = (if e.eventType = EventType.lap then updateBest st.bests.s3 e.sector3Time
               else st.bests.s3))
    ∧ (∀ (events : List Event) (c : Control) (ls : LoopState),
        (handleControl events c ls).engine = ls.engine)
    ∧ (∀ (results : String → String) (L : ℕ) (t : ℤ) (st : EngineState),
        (assemblerPass results L t st).bests = st.bests)
    ∧ ((tickSeq exEventsB exResults 1 [(none, 60000), (some Control.skipBackward, 0)]
          (initLoopState exEventsB exGrid 1)).engine.bests.s1 = some 20000
       ∧ (tickSeq exEventsB exResults 1 [(none, 60000), (some Control.skipBackward, 0)]
            (initLoopState exEventsB exGrid 1)).raceTime < exS1Fast.time
       ∧ exS1Fast.sector1Time = some 20000) := by
  refine ⟨fun grid => rfl, ?_, ?_, ?_, ?_, fun results L t st => rfl,
    by decide, by decide, by decide⟩
  · intro b s
    cases s with
    | none =>
        cases b with
        | none => rfl
        | some v => simp [updateBest, bestLE]
    | some t =>
        cases b with
        | none => rfl
        | some v =>
            by_cases h : t < v
            · simp only [updateBest, if_pos h, bestLE, decide_eq_true_eq]
              omega
            · simp only [updateBest, if_neg h, bestLE, decide_eq_true_eq]
              omega
  · intro b s hne
    cases s with
    | none => exact absurd rfl hne
    | some t =>
        cases b with
        | none => exact ⟨t, rfl, rfl, rfl⟩
        | some v =>
            by_cases h : t < v
            · refine ⟨t, rfl, by simp [updateBest, h], ?_⟩
              simp only [bestLT, decide_eq_true_eq]
              exact h
            · exact absurd (by simp [updateBest, h]) hne
  · intro st e
    refine ⟨?_, ?_, ?_⟩ <;> cases he : e.eventType <;> simp [applyEvent, updateBests, he]
  · intro events c ls
    cases c <;> rfl

/-- Witness for C10 on concrete tracker values: a smaller carried time
    lowers the tracker to itself. -/
theorem C10_session_bests_witness :
    ∃ t : ℤ, (some (20000 : ℤ)) = some t
      ∧ updateBest (some 30000) (some 20000) = some t
      ∧ bestLT (some t) (some 30000) = true :=
  C10_session_bests.2.2.1 (some 30000) (some 20000) (by decide)

end F1
